import Mathlib

/-!
Verification development for the earthquakes repository.

The repository has two Python files:
* `earthquakes.py` with `count_earthquakes`, `get_magnitude`, `get_location`
  and `get_maximum`;
* `plot_earthquakes.py` with `get_data`, `create_sample_data`, `get_year`,
  `get_magnitude`, `get_annual_statistics`, two plotting routines and
  `print_summary`.

The embedding below models GeoJSON-ish feature records as a structure whose
fields are `Option`-valued JSON values (a missing dictionary key, or a missing
enclosing `properties` or `geometry` dictionary, is `none`), Python numbers as
exact rationals, Python dicts as association lists in insertion order, and a
Python exception as an `Option`/`none` result.  Dates are computed with the
proleptic Gregorian calendar at UTC, which is what `datetime.date.fromtimestamp`
computes when the process runs with a UTC local time zone.
-/

/-- A JSON scalar value as it can appear in a feature's `properties` fields:
a number (Python ints and floats are modelled as exact rationals), a string,
or JSON `null` (Python `None`). -/
inductive JVal where
  | jnum (q : ℚ)
  | jstr (s : String)
  | jnull
deriving DecidableEq

/-- One element of the GeoJSON `features` array.  Each field is the value
stored under the corresponding key, or `none` when the key (or its enclosing
`properties` / `geometry` dictionary) is absent, so that reading it in Python
raises `KeyError` (or `TypeError` for a non-dictionary container). -/
structure Feature where
  time : Option JVal
  mag : Option JVal
  place : Option JVal
  coords : Option (List JVal)
deriving DecidableEq

/-- The parsed GeoJSON document: a dictionary with a `features` array. -/
structure Data where
  features : List Feature
deriving DecidableEq

/-- `count_earthquakes` from `earthquakes.py`: `len(data["features"])`. -/
def count_earthquakes (data : Data) : Nat :=
  data.features.length

/-- `get_magnitude` (identical in both files):
`earthquake["properties"]["mag"]`.  Returns the raw stored value; `none`
models the `KeyError` raised when the key is missing. -/
def get_magnitude (earthquake : Feature) : Option JVal :=
  earthquake.mag

/-- Read a JSON value as a number; `none` when it is not numeric, so that
using it in an arithmetic operation or an order comparison raises
`TypeError` in Python. -/
def asNum : JVal → Option ℚ
  | JVal.jnum q => some q
  | _ => none

/-- The magnitude of a record as a number: `get_magnitude` followed by the
numeric read that every use of a magnitude (comparison, averaging)
performs. -/
def getMagQ (e : Feature) : Option ℚ :=
  (get_magnitude e).bind asNum

/-- `get_location` from `earthquakes.py`: reads
`earthquake["geometry"]["coordinates"]` and returns
`(coordinates[1], coordinates[0])`, i.e. `(latitude, longitude)`.
`none` models the `KeyError`/`TypeError`/`IndexError` raised when the
coordinates are absent or too short. -/
def get_location (earthquake : Feature) : Option (JVal × JVal) :=
  match earthquake.coords with
  | none => none
  | some cs =>
    match cs[1]?, cs[0]? with
    | some la, some lo => some (la, lo)
    | _, _ => none

/-- The loop of `get_maximum`: state `(max_magnitude, max_earthquake)`,
initially `(-1, None)`; a record whose magnitude is not comparable to the
running maximum (non-numeric, e.g. a JSON `null`) raises `TypeError`,
modelled as `none`. -/
def maxLoop : List Feature → ℚ → Option Feature → Option (ℚ × Option Feature)
  | [], mm, me => some (mm, me)
  | e :: rest, mm, me =>
    match getMagQ e with
    | none => none
    | some m => if mm < m then maxLoop rest m (some e) else maxLoop rest mm me

/-- `get_maximum` from `earthquakes.py`: scan `data["features"]` for the
record of maximal magnitude (sentinel `-1`, strict improvement), then call
`get_location` on the recorded feature.  When no record was ever selected,
`get_location(None)` raises `TypeError`, modelled as `none`. -/
def get_maximum (data : Data) : Option (ℚ × (JVal × JVal)) :=
  match maxLoop data.features (-1) none with
  | none => none
  | some (_, none) => none
  | some (mm, some e) => (get_location e).map (fun loc => (mm, loc))

/-- Year of a day count relative to the Unix epoch (1970-01-01 is day 0),
in the proleptic Gregorian calendar: the standard civil-from-days
computation, using floor division throughout.  This is the year computed by
`datetime.date.fromtimestamp` at UTC. -/
def civilYearFromDays (z : Int) : Int :=
  let za := z + 719468
  let era := Int.fdiv za 146097
  let doe := za - era * 146097
  let yoe := Int.fdiv (doe - Int.fdiv doe 1460 + Int.fdiv doe 36524 - Int.fdiv doe 146096) 365
  let y := yoe + era * 400
  let doy := doe - (365 * yoe + Int.fdiv yoe 4 - Int.fdiv yoe 100)
  let mp := Int.fdiv (5 * doy + 2) 153
  if 10 ≤ mp then y + 1 else y

/-- `get_year` from `plot_earthquakes.py`:
`date.fromtimestamp(earthquake['properties']['time'] / 1000).year`.
`none` models the `KeyError` of a missing key and the `TypeError` of
dividing a non-number by 1000; both are caught by the caller's
`except (KeyError, TypeError)`. -/
def get_year (earthquake : Feature) : Option Int :=
  match earthquake.time with
  | some (JVal.jnum t) => some (civilYearFromDays ⌊t / 1000 / 86400⌋)
  | _ => none

/-- The body of `get_annual_statistics`' try-block for one record: extract
the year and the magnitude; `none` when either read raises one of the caught
exceptions (`KeyError` for a missing key, `TypeError` for a non-numeric
timestamp), in which case the record is skipped.  Note the raw magnitude
value is kept whatever its type: `get_magnitude` raises only for a missing
key. -/
def parseRecord (e : Feature) : Option (Int × JVal) :=
  match get_year e, get_magnitude e with
  | some y, some v => some (y, v)
  | _, _ => none

/-- Lookup in a Python dict modelled as an association list. -/
def dget? {α : Type} : List (Int × α) → Int → Option α
  | [], _ => none
  | p :: rest, y => if p.1 = y then some p.2 else dget? rest y

/-- Count lookup with the `defaultdict(int)` default 0. -/
def dgetN (d : List (Int × Nat)) (y : Int) : Nat :=
  (dget? d y).getD 0

/-- List lookup with the `defaultdict(list)` default `[]`. -/
def dgetL (d : List (Int × List JVal)) (y : Int) : List JVal :=
  (dget? d y).getD []

/-- `quakes_per_year[year] += 1` on a `defaultdict(int)`: increment the entry
in place, or append a fresh entry `(year, 1)` (Python dicts keep insertion
order). -/
def dictIncr : List (Int × Nat) → Int → List (Int × Nat)
  | [], y => [(y, 1)]
  | p :: rest, y => if p.1 = y then (p.1, p.2 + 1) :: rest else p :: dictIncr rest y

/-- `magnitudes_per_year[year].append(magnitude)` on a `defaultdict(list)`. -/
def dictAppend : List (Int × List JVal) → Int → JVal → List (Int × List JVal)
  | [], y, v => [(y, [v])]
  | p :: rest, y, v =>
    if p.1 = y then (p.1, p.2 ++ [v]) :: rest else p :: dictAppend rest y v

/-- The record loop of `get_annual_statistics`: accumulate the two
per-year dictionaries, skipping each record whose extraction raises a
caught exception. -/
def statsLoop : List Feature → List (Int × Nat) → List (Int × List JVal) →
    List (Int × Nat) × List (Int × List JVal)
  | [], q, m => (q, m)
  | e :: rest, q, m =>
    match parseRecord e with
    | some (y, v) => statsLoop rest (dictIncr q y) (dictAppend m y v)
    | none => statsLoop rest q m

/-- Option-valued `mapM` over a list, written out structurally. -/
def mapMO {α β : Type} (f : α → Option β) : List α → Option (List β)
  | [] => some []
  | a :: rest =>
    match f a with
    | none => none
    | some b => (mapMO f rest).map (fun bs => b :: bs)

/-- `np.mean` on a list of stored magnitude values: fails (`TypeError`)
when some element is not a number.  The magnitude lists of
`get_annual_statistics` are never empty; the empty case is also mapped to a
failure (`np.mean([])` yields `nan`, which no later code could use). -/
def npMean (xs : List JVal) : Option ℚ :=
  (mapMO asNum xs).bind
    (fun qs => if qs = [] then none else some (qs.sum / (qs.length : ℚ)))

/-- `get_annual_statistics` from `plot_earthquakes.py`: run the record loop,
then build `avg_magnitudes` by the dict comprehension
`{year: np.mean(mags) for year, mags in magnitudes_per_year.items()}`.
The comprehension is outside the per-record `try`, so a `TypeError` raised
by `np.mean` (a non-numeric stored magnitude) propagates out of the whole
function, modelled as `none`. -/
def get_annual_statistics (earthquakes : List Feature) :
    Option (List (Int × Nat) × List (Int × ℚ)) :=
  (mapMO (fun p => (npMean p.2).map (fun a => (p.1, a)))
      (statsLoop earthquakes [] []).2).map
    (fun avgs => ((statsLoop earthquakes [] []).1, avgs))

/-- Days since the Unix epoch of a Gregorian calendar date (the standard
days-from-civil computation, floor division throughout). -/
def daysFromCivil (y m d : Int) : Int :=
  let y2 := if m ≤ 2 then y - 1 else y
  let era := Int.fdiv y2 400
  let yoe := y2 - era * 400
  let mp := if 2 < m then m - 3 else m + 9
  let doy := Int.fdiv (153 * mp + 2) 5 + d - 1
  let doe := yoe * 365 + Int.fdiv yoe 4 - Int.fdiv yoe 100 + doy
  era * 146097 + doe - 719468

/-- `(datetime(2018, 10, 11) - datetime(2000, 1, 1)).days`, the `days_range`
of `create_sample_data`. -/
def days_range : Int :=
  daysFromCivil 2018 10 11 - daysFromCivil 2000 1 1

/-- `round(x, 1)` on a magnitude draw: round to one decimal digit.
(Python rounds exact halves to even; the draws are modelled as arbitrary
rationals and exact halves of a uniform draw are a measure-zero event, so
half-up rounding is used.) -/
def round10 (q : ℚ) : ℚ :=
  ((round (q * 10) : ℤ) : ℚ) / 10

/-- The loop body of `create_sample_data` at iteration `i`: the two random
draws of the iteration — `random.randint(0, days_range)` and
`random.uniform(1.0, 6.0)` — are passed in as oracle functions `fd` and
`fm`.  The synthetic feature has `properties.time` (epoch milliseconds of
midnight UTC of the drawn day), `properties.mag` (the uniform draw rounded
to one decimal) and `properties.place`; it has no `geometry`, hence no
coordinates. -/
def sampleFeatureAt (fd : Nat → Nat) (fm : Nat → ℚ) (i : Nat) : Feature :=
  ⟨some (JVal.jnum (((daysFromCivil 2000 1 1 + (fd i : Int)) * 86400 * 1000 : Int) : ℚ)),
   some (JVal.jnum (round10 (fm i))),
   some (JVal.jstr ("Sample Location " ++ toString i)),
   none⟩

/-- `create_sample_data` from `plot_earthquakes.py`: 1000 synthetic
features built from the random draws. -/
def create_sample_data (fd : Nat → Nat) (fm : Nat → ℚ) : Data :=
  ⟨(List.range 1000).map (sampleFeatureAt fd fm)⟩

/-- The HTTP response of the one `requests.get` call: a status code and the
parsed JSON body (`none` when the body is not valid JSON, so that
`response.json()` raises `requests.exceptions.JSONDecodeError`, a
`RequestException`). -/
structure HttpResponse where
  status : Nat
  body : Option Data
deriving DecidableEq

/-- The outcome of the network call: either a response was received, or the
request itself raised a `RequestException` (connection error, timeout,
redirect loop, ...). -/
inductive FetchOutcome where
  | response (r : HttpResponse)
  | requestError
deriving DecidableEq

/-- `response.raise_for_status()` raises `requests.HTTPError` exactly for
status codes 400–599. -/
def raisesForStatus (s : Nat) : Bool :=
  400 ≤ s && s < 600

/-- `get_data` from `plot_earthquakes.py`: perform the request; any
`RequestException` raised inside the `try` (the request itself failing,
`raise_for_status` on a 4xx/5xx response, or `response.json()` on an
unparseable body) is caught and answered with `create_sample_data()`.
The network outcome and the sample-data random draws are passed in. -/
def get_data (net : FetchOutcome) (fd : Nat → Nat) (fm : Nat → ℚ) : Data :=
  match net with
  | FetchOutcome.requestError => create_sample_data fd fm
  | FetchOutcome.response r =>
    if raisesForStatus r.status then create_sample_data fd fm
    else
      match r.body with
      | some d => d
      | none => create_sample_data fd fm

/-- Insert into an ascending list of years (model of Python `sorted`). -/
def insertAsc (y : Int) : List Int → List Int
  | [] => [y]
  | x :: rest => if y ≤ x then y :: x :: rest else x :: insertAsc y rest

/-- `sorted(...)` on the key list of a dict. -/
def sortAsc : List Int → List Int
  | [] => []
  | x :: rest => insertAsc x (sortAsc rest)

/-- `max(quakes_per_year, key=quakes_per_year.get)`: the first key of the
dict attaining the maximal value (`max` keeps the earlier element on ties);
`none` models the `ValueError` on an empty dict. -/
def pyMaxKey (d : List (Int × Nat)) : Option Int :=
  match d with
  | [] => none
  | p :: rest =>
    some (rest.foldl (fun best x => if best.2 < x.2 then x else best) p).1

/-- `min(quakes_per_year, key=quakes_per_year.get)`. -/
def pyMinKey (d : List (Int × Nat)) : Option Int :=
  match d with
  | [] => none
  | p :: rest =>
    some (rest.foldl (fun best x => if x.2 < best.2 then x else best) p).1

/-- The values printed by `print_summary`. -/
structure Summary where
  firstYear : Int
  lastYear : Int
  totalQuakes : Nat
  yearsCovered : Nat
  avgPerYear : ℚ
  mostActiveYear : Int
  leastActiveYear : Int
deriving DecidableEq

/-- `print_summary` from `plot_earthquakes.py`, as the summary values it
computes and prints.  On an empty `quakes_per_year` dict the subscript
`years[0]` raises `IndexError` (and `total_quakes/len(years)` would divide
by zero), modelled as `none`.  The `avg_magnitudes` argument is accepted
and, as in the source, unused. -/
def print_summary (quakes_per_year : List (Int × Nat))
    (avg_magnitudes : List (Int × ℚ)) : Option Summary :=
  let total := (quakes_per_year.map Prod.snd).sum
  let years := sortAsc (quakes_per_year.map Prod.fst)
  match years with
  | [] => none
  | y0 :: ys =>
    some ⟨y0, (y0 :: ys).getLastD y0, total, (y0 :: ys).length,
          (total : ℚ) / ((y0 :: ys).length : ℚ),
          (pyMaxKey quakes_per_year).getD 0, (pyMinKey quakes_per_year).getD 0⟩

/-- A record is well formed as an `EarthquakeRecord` of the data model for
aggregation purposes: `properties.time` is a number with an integral value
(epoch milliseconds) and `properties.mag` is a number. -/
def wellFormed (e : Feature) : Bool :=
  match e.time, e.mag with
  | some (JVal.jnum t), some (JVal.jnum _) => t.den == 1
  | _, _ => false

/-- The stored magnitude values of the records of year `y` that the
aggregation loop accepts (in input order). -/
def parsedOfYear (fs : List Feature) (y : Int) : List JVal :=
  fs.filterMap (fun e =>
    match parseRecord e with
    | some p => if p.1 = y then some p.2 else none
    | none => none)

/-- The records of year `y` that the aggregation loop accepts. -/
def recordsOfYear (fs : List Feature) (y : Int) : List Feature :=
  fs.filter (fun e =>
    match parseRecord e with
    | some p => p.1 == y
    | none => false)

/-- The numeric magnitudes of the accepted records of year `y`. -/
def magValsOfYear (fs : List Feature) (y : Int) : List ℚ :=
  (parsedOfYear fs y).filterMap asNum

/-- Sum of the per-year counts of a counts dictionary. -/
def sumCounts (q : List (Int × Nat)) : Nat :=
  (q.map Prod.snd).sum

/-- Constant oracle for the day draws (used to instantiate
`create_sample_data` on concrete inputs). -/
def cf0 : Nat → Nat := fun _ => 0

/-- Constant oracle for the magnitude draws. -/
def cg0 : Nat → ℚ := fun _ => 1

/-- The first synthetic feature produced by `create_sample_data cf0 cg0`:
midnight UTC 2000-01-01 (epoch millisecond 946684800000), magnitude 1,
place string, and no coordinates. -/
def sampleFeature0 : Feature :=
  ⟨some (JVal.jnum 946684800000), some (JVal.jnum 1),
   some (JVal.jstr "Sample Location 0"), none⟩

/-- A record with a valid timestamp whose `properties.mag` is JSON `null`
(a real occurrence in USGS feeds). -/
def badMagFeature : Feature :=
  ⟨some (JVal.jnum 0), some JVal.jnull, none, none⟩

/-- A record with no fields at all (e.g. an empty `properties` dict). -/
def emptyFeature : Feature :=
  ⟨none, none, none, none⟩

/-- A record whose `properties.time` is JSON `null`: `time / 1000` raises
`TypeError`, so aggregation skips it. -/
def nullTimeFeature : Feature :=
  ⟨some JVal.jnull, some (JVal.jnum 3), none, none⟩

/-- A well-formed record: 2000-01-01 UTC, magnitude 2, coordinates. -/
def featA : Feature :=
  ⟨some (JVal.jnum 946684800000), some (JVal.jnum 2), none,
   some [JVal.jnum 1, JVal.jnum 52, JVal.jnum 10]⟩

/-- A well-formed record: 2001-01-01 UTC (epoch millisecond 978307200000),
magnitude 5, coordinates. -/
def featB : Feature :=
  ⟨some (JVal.jnum 978307200000), some (JVal.jnum 5), none,
   some [JVal.jnum 0, JVal.jnum 51, JVal.jnum 7]⟩

/-- A record whose magnitude is below the `-1` sentinel of `get_maximum`. -/
def lowMagFeature : Feature :=
  ⟨some (JVal.jnum 0), some (JVal.jnum (-2)), none,
   some [JVal.jnum 0, JVal.jnum 51, JVal.jnum 7]⟩

/-- A record sharing `featA`'s timestamp but nothing else. -/
def featA2 : Feature :=
  ⟨some (JVal.jnum 946684800000), some (JVal.jnum 4), some (JVal.jstr "x"),
   none⟩

/-- A one-record document, used as a concrete HTTP response body. -/
def oneFeatureData : Data :=
  ⟨[featA]⟩

lemma wf_parse {e : Feature} (h : wellFormed e = true) :
    ∃ y q, parseRecord e = some (y, JVal.jnum q) := by
  unfold wellFormed at h
  split at h
  · rename_i t q ht hm
    exact ⟨civilYearFromDays ⌊t / 1000 / 86400⌋, q,
      by simp [parseRecord, get_year, get_magnitude, ht, hm]⟩
  · simp at h

lemma dgetN_dictIncr (q : List (Int × Nat)) (z y : Int) :
    dgetN (dictIncr q z) y = dgetN q y + (if z = y then 1 else 0) := by
  induction q with
  | nil =>
    simp only [dictIncr, dgetN, dget?]
    split_ifs with h <;> simp_all
  | cons p rest ih =>
    simp only [dictIncr]
    by_cases hpz : p.1 = z
    · by_cases hpy : p.1 = y
      · have hzy : z = y := by rw [← hpz, hpy]
        simp [dgetN, dget?, hpz, hpy, hzy]
      · have hzy : ¬ z = y := fun h => hpy (by rw [hpz, h])
        simp [dgetN, dget?, hpz, hpy, hzy]
    · by_cases hpy : p.1 = y
      · have hzy : ¬ z = y := fun h => hpz (by rw [hpy, ← h])
        have hyz : ¬ y = z := fun h => hzy h.symm
        simp [dgetN, dget?, hpz, hpy, hzy, hyz]
      · simp only [if_neg hpz, dgetN, dget?]
        rw [if_neg hpy, if_neg hpy]
        exact ih

lemma dgetL_dictAppend (m : List (Int × List JVal)) (z y : Int) (v : JVal) :
    dgetL (dictAppend m z v) y = dgetL m y ++ (if z = y then [v] else []) := by
  induction m with
  | nil =>
    simp only [dictAppend, dgetL, dget?]
    split_ifs with h <;> simp_all
  | cons p rest ih =>
    simp only [dictAppend]
    by_cases hpz : p.1 = z
    · by_cases hpy : p.1 = y
      · have hzy : z = y := by rw [← hpz, hpy]
        simp [dgetL, dget?, hpz, hpy, hzy]
      · have hzy : ¬ z = y := fun h => hpy (by rw [hpz, h])
        simp [dgetL, dget?, hpz, hpy, hzy]
    · by_cases hpy : p.1 = y
      · have hzy : ¬ z = y := fun h => hpz (by rw [hpy, ← h])
        have hyz : ¬ y = z := fun h => hzy h.symm
        simp [dgetL, dget?, hpz, hpy, hzy, hyz]
      · simp only [if_neg hpz, dgetL, dget?]
        rw [if_neg hpy, if_neg hpy]
        exact ih

lemma sumCounts_dictIncr (q : List (Int × Nat)) (y : Int) :
    sumCounts (dictIncr q y) = sumCounts q + 1 := by
  induction q with
  | nil => simp [dictIncr, sumCounts]
  | cons p rest ih =>
    simp only [dictIncr]
    split_ifs with h
    · simp [sumCounts]
      omega
    · simp only [sumCounts, List.map_cons, List.sum_cons] at *
      omega

lemma parsedOfYear_cons (e : Feature) (rest : List Feature) (y : Int) :
    parsedOfYear (e :: rest) y =
      (match parseRecord e with
       | some p => if p.1 = y then [p.2] else []
       | none => []) ++ parsedOfYear rest y := by
  simp only [parsedOfYear, List.filterMap_cons]
  cases hp : parseRecord e with
  | none => simp
  | some p =>
    by_cases h : p.1 = y <;> simp [h]

lemma statsLoop_count (fs : List Feature) (q : List (Int × Nat))
    (m : List (Int × List JVal)) (y : Int) :
    dgetN (statsLoop fs q m).1 y = dgetN q y + (parsedOfYear fs y).length := by
  induction fs generalizing q m with
  | nil => simp [statsLoop, parsedOfYear]
  | cons e rest ih =>
    simp only [statsLoop]
    rw [parsedOfYear_cons]
    cases hp : parseRecord e with
    | none => simp [ih]
    | some p =>
      obtain ⟨py, pv⟩ := p
      simp only []
      rw [ih, dgetN_dictIncr]
      by_cases h : py = y <;> simp [h] <;> omega

lemma statsLoop_mags (fs : List Feature) (q : List (Int × Nat))
    (m : List (Int × List JVal)) (y : Int) :
    dgetL (statsLoop fs q m).2 y = dgetL m y ++ parsedOfYear fs y := by
  induction fs generalizing q m with
  | nil => simp [statsLoop, parsedOfYear]
  | cons e rest ih =>
    simp only [statsLoop]
    rw [parsedOfYear_cons]
    cases hp : parseRecord e with
    | none => simp [ih]
    | some p =>
      obtain ⟨py, pv⟩ := p
      simp only []
      rw [ih, dgetL_dictAppend]
      by_cases h : py = y <;> simp [h]

lemma statsLoop_sum (fs : List Feature) (q : List (Int × Nat))
    (m : List (Int × List JVal)) :
    sumCounts (statsLoop fs q m).1 =
      sumCounts q + (fs.filterMap parseRecord).length := by
  induction fs generalizing q m with
  | nil => simp [statsLoop]
  | cons e rest ih =>
    simp only [statsLoop, List.filterMap_cons]
    cases hp : parseRecord e with
    | none => simp [ih]
    | some p =>
      obtain ⟨py, pv⟩ := p
      simp only []
      rw [ih, sumCounts_dictIncr]
      simp
      omega

lemma mapMO_isSome {α β : Type} (f : α → Option β) (l : List α)
    (h : ∀ a ∈ l, (f a).isSome) : ∃ out, mapMO f l = some out := by
  induction l with
  | nil => exact ⟨[], rfl⟩
  | cons a rest ih =>
    obtain ⟨out, hout⟩ := ih (fun x hx => h x (List.mem_cons_of_mem a hx))
    obtain ⟨b, hb⟩ := Option.isSome_iff_exists.mp (h a (List.mem_cons_self a rest))
    exact ⟨b :: out, by simp [mapMO, hb, hout]⟩

lemma mapMO_asNum_eq (xs : List JVal) (qs : List ℚ)
    (h : mapMO asNum xs = some qs) : qs = xs.filterMap asNum := by
  induction xs generalizing qs with
  | nil => simp [mapMO] at h; simp [h.symm]
  | cons v rest ih =>
    simp only [mapMO] at h
    cases hv : asNum v with
    | none => simp [hv] at h
    | some b =>
      rw [hv] at h
      simp only [Option.map_eq_some'] at h
      obtain ⟨bs, hbs, hcons⟩ := h
      rw [← hcons, List.filterMap_cons, hv]
      rw [ih bs hbs]

lemma filterMap_length_total {α β : Type} (f : α → Option β) (xs : List α)
    (h : ∀ a ∈ xs, (f a).isSome) : (xs.filterMap f).length = xs.length := by
  induction xs with
  | nil => rfl
  | cons a rest ih =>
    obtain ⟨b, hb⟩ := Option.isSome_iff_exists.mp (h a (List.mem_cons_self a rest))
    rw [List.filterMap_cons, hb]
    simp only [List.length_cons]
    rw [ih (fun x hx => h x (List.mem_cons_of_mem a hx))]

lemma npMean_some (xs : List JVal) (a : ℚ) (h : npMean xs = some a) :
    ∃ qs, mapMO asNum xs = some qs ∧ qs ≠ [] ∧ a = qs.sum / (qs.length : ℚ) := by
  unfold npMean at h
  cases hm : mapMO asNum xs with
  | none => rw [hm] at h; simp at h
  | some qs =>
    rw [hm] at h
    simp only [Option.some_bind] at h
    by_cases hq : qs = []
    · rw [if_pos hq] at h; simp at h
    · rw [if_neg hq] at h
      exact ⟨qs, rfl, hq, (Option.some.inj h).symm⟩

lemma npMean_total (xs : List JVal) (hne : xs ≠ [])
    (hnum : ∀ v ∈ xs, (asNum v).isSome) :
    npMean xs = some ((xs.filterMap asNum).sum / ((xs.filterMap asNum).length : ℚ)) := by
  obtain ⟨qs, hqs⟩ := mapMO_isSome asNum xs hnum
  have hq : qs = xs.filterMap asNum := mapMO_asNum_eq xs qs hqs
  have hlen : (xs.filterMap asNum).length = xs.length := filterMap_length_total asNum xs hnum
  have hne2 : qs ≠ [] := by
    rw [hq]
    intro hc
    apply hne
    have : xs.length = 0 := by rw [← hlen, hc]; rfl
    exact List.length_eq_zero.mp this
  unfold npMean
  rw [hqs]
  simp only [Option.some_bind, if_neg hne2]
  rw [hq]

lemma mapMO_avg_dget (l : List (Int × List JVal)) (out : List (Int × ℚ))
    (h : mapMO (fun p => (npMean p.2).map (fun a => (p.1, a))) l = some out)
    (y : Int) : dget? out y = (dget? l y).bind npMean := by
  induction l generalizing out with
  | nil =>
    simp only [mapMO] at h
    rw [← Option.some.inj h]
    simp [dget?]
  | cons p rest ih =>
    simp only [mapMO] at h
    cases hf : npMean p.2 with
    | none => simp [hf] at h
    | some a =>
      rw [hf] at h
      simp only [Option.map_some', Option.map_eq_some'] at h
      obtain ⟨bs, hbs, hcons⟩ := h
      rw [← hcons]
      simp only [dget?]
      by_cases hy : p.1 = y
      · simp [hy, hf]
      · simp [hy, ih bs hbs]

lemma parsedOfYear_allNum (fs : List Feature) (y : Int)
    (hwf : ∀ e ∈ fs, wellFormed e = true) :
    ∀ v ∈ parsedOfYear fs y, (asNum v).isSome := by
  induction fs with
  | nil => simp [parsedOfYear]
  | cons e rest ih =>
    rw [parsedOfYear_cons]
    intro v hv
    rw [List.mem_append] at hv
    cases hv with
    | inr hv => exact ih (fun x hx => hwf x (List.mem_cons_of_mem e hx)) v hv
    | inl hv =>
      obtain ⟨y2, q2, hp⟩ := wf_parse (hwf e (List.mem_cons_self e rest))
      rw [hp] at hv
      by_cases hy : y2 = y
      · simp [hy] at hv
        rw [hv]
        simp [asNum]
      · simp [hy] at hv

lemma recordsOfYear_length (fs : List Feature) (y : Int) :
    (recordsOfYear fs y).length = (parsedOfYear fs y).length := by
  induction fs with
  | nil => rfl
  | cons e rest ih =>
    rw [parsedOfYear_cons]
    simp only [recordsOfYear, List.filter_cons] at *
    cases hp : parseRecord e with
    | none => simpa using ih
    | some p =>
      by_cases hy : p.1 = y
      · simp [hy, ih]
      · simp [hy, ih]

lemma dictAppend_vals {P : List JVal → Prop} (m : List (Int × List JVal))
    (y : Int) (v : JVal) (h : ∀ p ∈ m, P p.2)
    (hstep : ∀ xs, P xs → P (xs ++ [v])) (hbase : P [v]) :
    ∀ p ∈ dictAppend m y v, P p.2 := by
  induction m with
  | nil =>
    intro p hp
    simp [dictAppend] at hp
    rw [hp]
    exact hbase
  | cons r rest ih =>
    intro p hp
    simp only [dictAppend] at hp
    by_cases hr : r.1 = y
    · rw [if_pos hr] at hp
      rcases List.mem_cons.mp hp with hh | ht
      · rw [hh]
        exact hstep r.2 (h r (List.mem_cons_self r rest))
      · exact h p (List.mem_cons_of_mem r ht)
    · rw [if_neg hr] at hp
      rcases List.mem_cons.mp hp with hh | ht
      · rw [hh]
        exact h r (List.mem_cons_self r rest)
      · exact ih (fun x hx => h x (List.mem_cons_of_mem r hx)) p ht

lemma statsLoop_vals (fs : List Feature) (q : List (Int × Nat))
    (m : List (Int × List JVal)) (hwf : ∀ e ∈ fs, wellFormed e = true)
    (hm : ∀ p ∈ m, p.2 ≠ [] ∧ ∀ u ∈ p.2, (asNum u).isSome) :
    ∀ p ∈ (statsLoop fs q m).2, p.2 ≠ [] ∧ ∀ u ∈ p.2, (asNum u).isSome := by
  induction fs generalizing q m with
  | nil => exact hm
  | cons e rest ih =>
    obtain ⟨y2, q2, hp⟩ := wf_parse (hwf e (List.mem_cons_self e rest))
    simp only [statsLoop, hp]
    refine ih _ _ (fun x hx => hwf x (List.mem_cons_of_mem e hx)) ?_
    apply dictAppend_vals
      (P := fun xs => xs ≠ [] ∧ ∀ u ∈ xs, (asNum u).isSome = true)
      m y2 (JVal.jnum q2) hm
    · intro xs hxs
      refine ⟨by simp, ?_⟩
      intro u hu
      rcases List.mem_append.mp hu with h1 | h2
      · exact hxs.2 u h1
      · simp at h2
        rw [h2]
        simp [asNum]
    · refine ⟨by simp, ?_⟩
      intro u hu
      simp at hu
      rw [hu]
      simp [asNum]

lemma gas_eq (fs : List Feature) (q : List (Int × Nat)) (avgs : List (Int × ℚ))
    (h : get_annual_statistics fs = some (q, avgs)) :
    q = (statsLoop fs [] []).1 ∧
      mapMO (fun p => (npMean p.2).map (fun a => (p.1, a)))
        (statsLoop fs [] []).2 = some avgs := by
  unfold get_annual_statistics at h
  cases hm : mapMO (fun p => (npMean p.2).map (fun a => (p.1, a)))
      (statsLoop fs [] []).2 with
  | none => rw [hm] at h; simp at h
  | some out =>
    rw [hm] at h
    simp only [Option.map_some', Option.some.injEq, Prod.mk.injEq] at h
    exact ⟨h.1.symm, by rw [h.2]⟩

lemma gas_some_of_wf (fs : List Feature)
    (hwf : ∀ e ∈ fs, wellFormed e = true) :
    ∃ q avgs, get_annual_statistics fs = some (q, avgs) := by
  have hvals := statsLoop_vals fs [] [] hwf (by simp)
  have hsome : ∀ p ∈ (statsLoop fs [] []).2,
      ((fun p => (npMean p.2).map (fun a => (p.1, a))) p).isSome := by
    intro p hp
    obtain ⟨hne, hnum⟩ := hvals p hp
    simp only [npMean_total p.2 hne hnum]
    rfl
  obtain ⟨out, hout⟩ := mapMO_isSome
      (fun p => (npMean p.2).map (fun a => (p.1, a))) (statsLoop fs [] []).2 hsome
  exact ⟨(statsLoop fs [] []).1, out, by
    unfold get_annual_statistics
    rw [hout]
    rfl⟩

lemma statsLoop_skip (fs : List Feature) (q : List (Int × Nat))
    (m : List (Int × List JVal)) (h : ∀ e ∈ fs, parseRecord e = none) :
    statsLoop fs q m = (q, m) := by
  induction fs with
  | nil => rfl
  | cons e rest ih =>
    simp only [statsLoop, h e (List.mem_cons_self e rest)]
    exact ih (fun x hx => h x (List.mem_cons_of_mem e hx))

lemma gas_skipAll (fs : List Feature) (h : ∀ e ∈ fs, parseRecord e = none) :
    get_annual_statistics fs = some ([], []) := by
  unfold get_annual_statistics
  rw [statsLoop_skip fs [] [] h]
  rfl

lemma maxLoop_spec (fs : List Feature) (mm : ℚ) (me : Option Feature)
    (h : ∀ e ∈ fs, (getMagQ e).isSome) :
    ∃ mm2 me2, maxLoop fs mm me = some (mm2, me2) ∧ mm ≤ mm2 ∧
      (∀ e ∈ fs, ∀ q, getMagQ e = some q → q ≤ mm2) ∧
      ((mm2 = mm ∧ me2 = me) ∨
        ∃ e ∈ fs, me2 = some e ∧ getMagQ e = some mm2) := by
  induction fs generalizing mm me with
  | nil => exact ⟨mm, me, rfl, le_refl mm, by simp, Or.inl ⟨rfl, rfl⟩⟩
  | cons e rest ih =>
    obtain ⟨m, hm⟩ := Option.isSome_iff_exists.mp (h e (List.mem_cons_self e rest))
    have hrest : ∀ x ∈ rest, (getMagQ x).isSome :=
      fun x hx => h x (List.mem_cons_of_mem e hx)
    by_cases hlt : mm < m
    · obtain ⟨mm2, me2, hml, hle, hub, hsel⟩ := ih m (some e) hrest
      refine ⟨mm2, me2, ?_, le_of_lt (lt_of_lt_of_le hlt hle), ?_, ?_⟩
      · simp only [maxLoop, hm, if_pos hlt]
        exact hml
      · intro x hx q hq
        rcases List.mem_cons.mp hx with hxe | hx2
        · rw [hxe, hm] at hq
          rw [← Option.some.inj hq]
          exact hle
        · exact hub x hx2 q hq
      · rcases hsel with ⟨h1, h2⟩ | ⟨x, hx, h2, h3⟩
        · exact Or.inr ⟨e, List.mem_cons_self e rest, h2, by rw [hm, h1]⟩
        · exact Or.inr ⟨x, List.mem_cons_of_mem e hx, h2, h3⟩
    · obtain ⟨mm2, me2, hml, hle, hub, hsel⟩ := ih mm me hrest
      refine ⟨mm2, me2, ?_, hle, ?_, ?_⟩
      · simp only [maxLoop, hm, if_neg hlt]
        exact hml
      · intro x hx q hq
        rcases List.mem_cons.mp hx with hxe | hx2
        · rw [hxe, hm] at hq
          rw [← Option.some.inj hq]
          exact le_trans (not_lt.mp hlt) hle
        · exact hub x hx2 q hq
      · rcases hsel with ⟨h1, h2⟩ | ⟨x, hx, h2, h3⟩
        · exact Or.inl ⟨h1, h2⟩
        · exact Or.inr ⟨x, List.mem_cons_of_mem e hx, h2, h3⟩

lemma maxLoop_no_improve (fs : List Feature) (mm : ℚ) (me : Option Feature)
    (h : ∀ e ∈ fs, ∃ q, getMagQ e = some q ∧ q ≤ mm) :
    maxLoop fs mm me = some (mm, me) := by
  induction fs with
  | nil => rfl
  | cons e rest ih =>
    obtain ⟨q, hq, hle⟩ := h e (List.mem_cons_self e rest)
    simp only [maxLoop, hq, if_neg (not_lt.mpr hle)]
    exact ih (fun x hx => h x (List.mem_cons_of_mem e hx))

set_option maxRecDepth 8000 in
lemma mem_create_sample_data (fd : Nat → Nat) (fm : Nat → ℚ) (i : Nat)
    (hi : i < 1000) :
    sampleFeatureAt fd fm i ∈ (create_sample_data fd fm).features := by
  show sampleFeatureAt fd fm i ∈ (List.range 1000).map (sampleFeatureAt fd fm)
  exact List.mem_map.mpr ⟨i, List.mem_range.mpr hi, rfl⟩

lemma round10_one : round10 1 = 1 := by
  unfold round10
  rw [show (1 : ℚ) * 10 = ((10 : ℤ) : ℚ) by norm_num, round_intCast]
  norm_num

lemma sampleFeature0_eq : sampleFeatureAt cf0 cg0 0 = sampleFeature0 := by
  unfold sampleFeatureAt sampleFeature0 cf0 cg0
  have h1 : (((daysFromCivil 2000 1 1 + ((0 : Nat) : Int)) * 86400 * 1000 : Int) : ℚ)
      = 946684800000 := by
    rw [show daysFromCivil 2000 1 1 = 10957 from by decide]
    norm_num
  have h3 : "Sample Location " ++ toString (0 : Nat) = "Sample Location 0" := rfl
  rw [h1, round10_one, h3]

lemma sampleFeature0_mem :
    sampleFeature0 ∈ (create_sample_data cf0 cg0).features := by
  rw [← sampleFeature0_eq]
  exact mem_create_sample_data cf0 cg0 0 (by norm_num)

lemma round10_bounds (x : ℚ) (h1 : 1 ≤ x) (h6 : x ≤ 6) :
    1 ≤ round10 x ∧ round10 x ≤ 6 := by
  have hlo : (10 : ℤ) ≤ round (x * 10) := by
    rw [round_eq]
    apply Int.le_floor.mpr
    push_cast
    linarith
  have hhi : round (x * 10) ≤ (60 : ℤ) := by
    rw [round_eq]
    have ha : ⌊x * 10 + 1 / 2⌋ ≤ ⌊(121 : ℚ) / 2⌋ := Int.floor_le_floor (by linarith)
    have hb : ⌊(121 : ℚ) / 2⌋ = (60 : ℤ) := by
      rw [Int.floor_eq_iff]
      constructor <;> norm_num
    omega
  constructor
  · unfold round10
    have hc : (10 : ℚ) ≤ ((round (x * 10) : ℤ) : ℚ) := by exact_mod_cast hlo
    linarith
  · unfold round10
    have hc : ((round (x * 10) : ℤ) : ℚ) ≤ 60 := by exact_mod_cast hhi
    linarith

/-- Claim C1: for a fixed input list of records (well-formed
`EarthquakeRecord`s of the data model: numeric integral `properties.time`,
numeric `properties.mag`), the sum of the per-year counts returned by
`get_annual_statistics` equals the total record count of the input list,
i.e. the length of the `features` array as computed by
`count_earthquakes`. -/
theorem C1_counts_sum_to_total (data : Data)
    (h : ∀ e ∈ data.features, wellFormed e = true) :
    ∃ q avgs, get_annual_statistics data.features = some (q, avgs) ∧
      sumCounts q = count_earthquakes data := by
  obtain ⟨q, avgs, hgas⟩ := gas_some_of_wf data.features h
  refine ⟨q, avgs, hgas, ?_⟩
  obtain ⟨hq, _⟩ := gas_eq data.features q avgs hgas
  have htot : ∀ e ∈ data.features, (parseRecord e).isSome := by
    intro e he
    obtain ⟨y, qv, hp⟩ := wf_parse (h e he)
    rw [hp]
    rfl
  rw [hq, statsLoop_sum, filterMap_length_total parseRecord data.features htot]
  simp [sumCounts, count_earthquakes]

theorem C1_counts_sum_to_total_witness :
    ∃ q avgs, get_annual_statistics (Data.mk [featA, featB]).features
        = some (q, avgs) ∧
      sumCounts q = count_earthquakes (Data.mk [featA, featB]) :=
  C1_counts_sum_to_total (Data.mk [featA, featB]) (by decide)

/-- Claim C3: `get_annual_statistics` groups the records it accepts by
derived year; for every year present in its output, the count equals the
number of accepted records of that year and the average magnitude equals
the sum of those records' magnitudes divided by the count.  Records are
well-formed data-model records; numbers are exact rationals (the Python
original computes `np.mean` in floating point). -/
theorem C3_groups_by_year (fs : List Feature)
    (h : ∀ e ∈ fs, wellFormed e = true) :
    ∃ q avgs, get_annual_statistics fs = some (q, avgs) ∧
      (∀ y c, dget? q y = some c → c = (recordsOfYear fs y).length) ∧
      (∀ y a, dget? avgs y = some a →
        a = (magValsOfYear fs y).sum / ((recordsOfYear fs y).length : ℚ)) := by
  obtain ⟨q, avgs, hgas⟩ := gas_some_of_wf fs h
  obtain ⟨hq, havgs⟩ := gas_eq fs q avgs hgas
  refine ⟨q, avgs, hgas, ?_, ?_⟩
  · intro y c hc
    have hcount := statsLoop_count fs [] [] y
    rw [← hq] at hcount
    have hc2 : dgetN q y = c := by rw [dgetN, hc]; rfl
    have hrl := recordsOfYear_length fs y
    have h0 : dgetN ([] : List (Int × Nat)) y = 0 := rfl
    omega
  · intro y a ha
    have hdget := mapMO_avg_dget (statsLoop fs [] []).2 avgs havgs y
    rw [ha] at hdget
    cases hdm : dget? (statsLoop fs [] []).2 y with
    | none => rw [hdm] at hdget; simp at hdget
    | some ms =>
      rw [hdm] at hdget
      simp only [Option.some_bind] at hdget
      have hms : ms = parsedOfYear fs y := by
        have h2 := statsLoop_mags fs [] [] y
        rw [dgetL, hdm] at h2
        simpa [dgetL, dget?] using h2
      obtain ⟨qs, hqs, hne, haq⟩ := npMean_some ms a hdget.symm
      have hqs2 : qs = ms.filterMap asNum := mapMO_asNum_eq ms qs hqs
      have hnum : ∀ v ∈ parsedOfYear fs y, (asNum v).isSome :=
        parsedOfYear_allNum fs y h
      have hlen : qs.length = (recordsOfYear fs y).length := by
        rw [hqs2, hms, filterMap_length_total asNum _ hnum,
          recordsOfYear_length]
      rw [haq, hlen]
      congr 1
      rw [hqs2, hms]
      rfl

theorem C3_groups_by_year_witness :
    ∃ q avgs, get_annual_statistics [featA, featB, featA2] = some (q, avgs) ∧
      (∀ y c, dget? q y = some c →
        c = (recordsOfYear [featA, featB, featA2] y).length) ∧
      (∀ y a, dget? avgs y = some a →
        a = (magValsOfYear [featA, featB, featA2] y).sum /
          ((recordsOfYear [featA, featB, featA2] y).length : ℚ)) :=
  C3_groups_by_year [featA, featB, featA2] (by decide)

set_option maxRecDepth 40000 in
/-- Claim C4 (code bug): the spec says a record with a malformed
`properties.mag` is skipped during aggregation, but a record whose `mag`
key is present with a null (non-numeric) value is NOT skipped: the record
is counted for its year and the null value reaches the year's magnitude
list, so `np.mean` raises a `TypeError` that propagates out of
`get_annual_statistics` (modelled as `none`).  Aggregation over the
sublist of well-formed records (here the empty list) instead returns empty
statistics, so the two results differ. -/
theorem C4_malformed_mag_not_skipped :
    get_annual_statistics [badMagFeature] = none ∧
    get_annual_statistics ([] : List Feature) = some ([], []) := by
  constructor
  · rfl
  · rfl

/-- Claim C5: given zero valid records — an empty list, or a list in which
every record fails the aggregation loop's field extraction (missing
`properties.time` or `properties.mag` key, or a non-numeric timestamp), so
that every record is skipped — `get_annual_statistics` returns two empty
dictionaries and raises no error. -/
theorem C5_empty_stats (fs : List Feature)
    (h : ∀ e ∈ fs, parseRecord e = none) :
    get_annual_statistics fs = some ([], []) :=
  gas_skipAll fs h

theorem C5_empty_stats_witness :
    get_annual_statistics [emptyFeature, nullTimeFeature] = some ([], []) :=
  C5_empty_stats [emptyFeature, nullTimeFeature] (by decide)

set_option maxRecDepth 40000 in
/-- Claim C6 counterexample: a response whose status is not 2xx need not
produce the synthetic dataset — `raise_for_status` raises only for
400–599, so a 301 response with a parseable JSON body is returned as-is
by `get_data`, and differs from `create_sample_data`'s dataset. -/
theorem C6_non2xx_counterexample :
    get_data (FetchOutcome.response ⟨301, some oneFeatureData⟩) cf0 cg0 ≠
      create_sample_data cf0 cg0 := by
  intro h
  have h1 : get_data (FetchOutcome.response ⟨301, some oneFeatureData⟩) cf0 cg0
      = oneFeatureData := rfl
  rw [h1] at h
  have hlen := congrArg (fun d => d.features.length) h
  simp only [oneFeatureData, create_sample_data, List.length_map,
    List.length_range] at hlen
  simp at hlen

/-- Claim C6 amended: when the HTTP request raises a `RequestException`,
or the response status is 4xx/5xx (the statuses for which
`raise_for_status` raises), or the response body is not valid JSON,
`get_data` raises no error and returns the locally generated synthetic
dataset from `create_sample_data`, and the program continues with it. -/
theorem C6_fallback (net : FetchOutcome) (fd : Nat → Nat) (fm : Nat → ℚ)
    (h : net = FetchOutcome.requestError ∨
      ∃ r, net = FetchOutcome.response r ∧
        (raisesForStatus r.status = true ∨ r.body = none)) :
    get_data net fd fm = create_sample_data fd fm := by
  rcases h with h | ⟨r, hr, hrr⟩
  · rw [h]
    rfl
  · rw [hr]
    unfold get_data
    rcases hrr with hs | hb
    · simp [hs]
    · cases hc : raisesForStatus r.status
      · simp [hc, hb]
      · simp [hc]

theorem C6_fallback_witness :
    get_data FetchOutcome.requestError cf0 cg0 = create_sample_data cf0 cg0 :=
  C6_fallback FetchOutcome.requestError cf0 cg0 (Or.inl rfl)

/-- Claim C7 counterexample: the synthetic records produced by
`create_sample_data` do NOT carry a longitude and a latitude — they have no
`geometry` at all, so `get_location` fails on them.  Exhibited on the first
record of a concrete instantiation of the random draws. -/
theorem C7_no_coordinates_counterexample :
    ∃ e ∈ (create_sample_data cf0 cg0).features,
      e.coords = none ∧ get_location e = none :=
  ⟨sampleFeature0, sampleFeature0_mem, rfl, rfl⟩

set_option maxRecDepth 8000 in
/-- Claim C7 amended: every synthetic record produced by
`create_sample_data` carries a numeric magnitude in [1, 6] (the rounded
uniform draw), an integer epoch-millisecond time, and a place string — but
no longitude and no latitude, since the record has no coordinates. -/
theorem C7_sample_record_shape (fd : Nat → Nat) (fm : Nat → ℚ)
    (hm : ∀ i, 1 ≤ fm i ∧ fm i ≤ 6) :
    ∀ e ∈ (create_sample_data fd fm).features,
      (∃ t : ℤ, e.time = some (JVal.jnum (t : ℚ))) ∧
      (∃ q : ℚ, e.mag = some (JVal.jnum q) ∧ 1 ≤ q ∧ q ≤ 6) ∧
      (∃ s : String, e.place = some (JVal.jstr s)) ∧
      e.coords = none := by
  intro e he
  obtain ⟨i, hi, hei⟩ := List.mem_map.mp he
  rw [← hei]
  obtain ⟨hq1, hq6⟩ := round10_bounds (fm i) (hm i).1 (hm i).2
  exact ⟨⟨(daysFromCivil 2000 1 1 + (fd i : Int)) * 86400 * 1000, rfl⟩,
    ⟨round10 (fm i), rfl, hq1, hq6⟩,
    ⟨"Sample Location " ++ toString i, rfl⟩, rfl⟩

theorem C7_sample_record_shape_witness :
    (∃ t : ℤ, sampleFeature0.time = some (JVal.jnum (t : ℚ))) ∧
    (∃ q : ℚ, sampleFeature0.mag = some (JVal.jnum q) ∧ 1 ≤ q ∧ q ≤ 6) ∧
    (∃ s : String, sampleFeature0.place = some (JVal.jstr s)) ∧
    sampleFeature0.coords = none :=
  C7_sample_record_shape cf0 cg0
    (fun i => ⟨le_refl 1, by show (1 : ℚ) ≤ 6; norm_num⟩)
    sampleFeature0 sampleFeature0_mem

/-- Claim C8: year derivation is deterministic — `get_year` depends only on
the record's stored timestamp, so records with equal `properties.time` get
the same derived year, and a record's derived year, when defined, is
unique: each record belongs to exactly one derived year. -/
theorem C8_get_year_deterministic :
    (∀ a b : Feature, a.time = b.time → get_year a = get_year b) ∧
    (∀ e : Feature, ∀ y1 y2 : Int,
      get_year e = some y1 → get_year e = some y2 → y1 = y2) := by
  constructor
  · intro a b h
    unfold get_year
    rw [h]
  · intro e y1 y2 h1 h2
    rw [h1] at h2
    exact Option.some.inj h2

theorem C8_get_year_deterministic_witness :
    get_year featA = get_year featA2 :=
  C8_get_year_deterministic.1 featA featA2 rfl

/-- Claim C2: on a document whose features all have numeric magnitudes and
two-or-more-element coordinate lists, and at least one magnitude above the
`-1` sentinel, `get_maximum` returns the magnitude and the
`(latitude, longitude)` location of a record of the document whose
magnitude is greater than or equal to every other record's magnitude. -/
theorem C2_maximum_correct (data : Data)
    (h1 : ∀ e ∈ data.features, (getMagQ e).isSome)
    (h2 : ∃ e ∈ data.features, ∃ q, getMagQ e = some q ∧ -1 < q)
    (h3 : ∀ e ∈ data.features, ∃ cs, e.coords = some cs ∧ 2 ≤ cs.length) :
    ∃ e ∈ data.features, ∃ q la lo,
      getMagQ e = some q ∧ get_location e = some (la, lo) ∧
      get_maximum data = some (q, (la, lo)) ∧
      ∀ e2 ∈ data.features, ∀ q2, getMagQ e2 = some q2 → q2 ≤ q := by
  obtain ⟨mm2, me2, hml, hle, hub, hsel⟩ :=
    maxLoop_spec data.features (-1) none h1
  obtain ⟨e0, he0, q0, hq0, hgt⟩ := h2
  have hq0le := hub e0 he0 q0 hq0
  rcases hsel with ⟨hmmeq, _⟩ | ⟨e, he, hme, hmag⟩
  · rw [hmmeq] at hq0le
    exact absurd (lt_of_lt_of_le hgt hq0le) (lt_irrefl (-1))
  · obtain ⟨cs, hcs, hlen2⟩ := h3 e he
    have hloc : ∃ la lo, get_location e = some (la, lo) := by
      unfold get_location
      rw [hcs]
      simp only [List.getElem?_eq_getElem (show 1 < cs.length by omega),
        List.getElem?_eq_getElem (show 0 < cs.length by omega)]
      exact ⟨_, _, rfl⟩
    obtain ⟨la, lo, hloc⟩ := hloc
    refine ⟨e, he, mm2, la, lo, hmag, hloc, ?_, hub⟩
    unfold get_maximum
    rw [hml, hme]
    simp [hloc]

theorem C2_maximum_correct_witness :
    ∃ e ∈ (Data.mk [featA, featB]).features, ∃ q la lo,
      getMagQ e = some q ∧ get_location e = some (la, lo) ∧
      get_maximum (Data.mk [featA, featB]) = some (q, (la, lo)) ∧
      ∀ e2 ∈ (Data.mk [featA, featB]).features, ∀ q2,
        getMagQ e2 = some q2 → q2 ≤ q :=
  C2_maximum_correct (Data.mk [featA, featB]) (by decide)
    ⟨featB, by decide, 5, rfl, by norm_num⟩
    (by
      intro e he
      rcases List.mem_cons.mp he with hea | he2
      · exact ⟨[JVal.jnum 1, JVal.jnum 52, JVal.jnum 10],
          by rw [hea]; rfl, by norm_num⟩
      · have heb : e = featB := by simpa using he2
        exact ⟨[JVal.jnum 0, JVal.jnum 51, JVal.jnum 7],
          by rw [heb]; rfl, by norm_num⟩)

/-- Claim C9: `get_maximum` is partial on its sentinel: when every record's
magnitude is at most `-1` (in particular on an empty `features` array), no
record is ever selected, so `get_location(None)` is called and the function
fails with a `TypeError` (modelled as `none`) instead of returning a
magnitude-location pair. -/
theorem C9_sentinel_failure (data : Data)
    (h : ∀ e ∈ data.features, ∃ q, getMagQ e = some q ∧ q ≤ -1) :
    get_maximum data = none := by
  unfold get_maximum
  rw [maxLoop_no_improve data.features (-1) none h]

theorem C9_sentinel_failure_witness :
    get_maximum (Data.mk [lowMagFeature]) = none ∧
    get_maximum (Data.mk []) = none :=
  ⟨C9_sentinel_failure (Data.mk [lowMagFeature]) (by
      intro e he
      have hel : e = lowMagFeature := by simpa using he
      rw [hel]
      exact ⟨-2, rfl, by norm_num⟩),
   C9_sentinel_failure (Data.mk []) (by simp)⟩

/-- Claim C10: `print_summary` requires a non-empty per-year count
dictionary: on the empty statistics that aggregation yields for zero valid
records, it fails (`years[0]` on the empty sorted key list, and
`total_quakes / len(years)` would divide by zero) instead of printing a
summary — modelled as a `none` summary. -/
theorem C10_print_summary_empty (fs : List Feature)
    (h : ∀ e ∈ fs, parseRecord e = none) :
    ∃ q avgs, get_annual_statistics fs = some (q, avgs) ∧
      print_summary q avgs = none :=
  ⟨[], [], gas_skipAll fs h, rfl⟩

theorem C10_print_summary_empty_witness :
    ∃ q avgs, get_annual_statistics [emptyFeature] = some (q, avgs) ∧
      print_summary q avgs = none :=
  C10_print_summary_empty [emptyFeature] (by decide)
